import Mathlib

/-
  Verification development for the auto_verify_nft Solana program
  (src/programs/mint-verify/src/lib.rs).

  The embedding models the on-chain state touched by the program as explicit
  association lists from addresses (Nat) to account contents, and each of the
  three instructions (initialize_collection, mint_and_verify_nft,
  update_collection_authority) as a function from the pre-state and the
  instruction arguments to either an error or the post-state together with the
  list of CPI invocations the handler issued.  The external collaborators
  (SPL token program, Metaplex token-metadata program, the runtime address
  derivation) are modelled at their interface boundary.
-/

namespace AutoVerify

/-! ## Addresses and byte strings -/

/-- A public key / account address, modelled as a natural number standing for
the 32-byte value. -/
abbrev Pubkey := Nat

/-- A byte string (each entry is one byte). -/
abbrev Bytes := List Nat

/-- Byte representation of an ASCII string literal (used for fixed seed tags). -/
def strBytes (s : String) : Bytes := s.toList.map Char.toNat

/-- The 32-byte representation of a public key, as used when a key is a PDA
seed component. -/
def keyBytes (k : Pubkey) : Bytes := (List.range 32).map fun i => k / 256 ^ i % 256

/-! ## Program constants (lib.rs, PROGRAM CONSTANTS section) -/

/-- Byte string of the fixed domain tag "collection_authority"
(COLLECTION_AUTHORITY_SEED in lib.rs). -/
def COLLECTION_AUTHORITY_SEED : Bytes := strBytes "collection_authority"

/-- Seed tag "metadata" used by the Metaplex metadata PDA derivation. -/
def METADATA_SEED : Bytes := strBytes "metadata"

/-- Seed tag "edition" used by the Metaplex master-edition PDA derivation. -/
def EDITION_SEED : Bytes := strBytes "edition"

/-- MAX_COLLECTION_SEED_LENGTH from lib.rs (declared, never referenced by the
handlers; equal to the runtime limit on one PDA seed component). -/
def MAX_COLLECTION_SEED_LENGTH : Nat := 32

/-- MAX_METADATA_NAME_LENGTH from lib.rs; also the limit the Metaplex registry
enforces on the name field. -/
def MAX_METADATA_NAME_LENGTH : Nat := 32

/-- MAX_METADATA_SYMBOL_LENGTH from lib.rs; also the Metaplex limit. -/
def MAX_METADATA_SYMBOL_LENGTH : Nat := 10

/-- MAX_METADATA_URI_LENGTH from lib.rs; also the Metaplex limit. -/
def MAX_METADATA_URI_LENGTH : Nat := 200

/-- The address of this program (declare_id! in lib.rs), as an abstract model
constant. -/
def PROGRAM_ID : Pubkey := 101

/-- The address of the Metaplex token-metadata program. -/
def TOKEN_METADATA_PROGRAM_ID : Pubkey := 102

/-- The address of the SPL token program. -/
def TOKEN_PROGRAM_ID : Pubkey := 103

/-- The address of the associated-token-account program. -/
def ATA_PROGRAM_ID : Pubkey := 104

/-! ## Program-derived-address derivation

Modelled from the spec (section 4.1): the runtime derives an address from
(seed components, program id) by hashing, searching downward from 255 for the
first bump value whose resulting bit pattern is not a valid curve point.  The
hash and the curve-membership test are abstracted as parameters of a
`Runtime`; every concrete runtime makes the derivation a pure, total function
of the seeds, the bump and the program id. -/

/-- The ambient runtime facilities the derivation depends on: the
hash-to-address map and the curve-membership test.  Abstract parameters so
theorems hold for every runtime; concrete instances are used for witnesses. -/
structure Runtime where
  pdaHash : List Bytes → Pubkey → Pubkey
  onCurve : Pubkey → Bool

/-- Error kinds of a single create-program-address attempt. -/
inductive PubkeyErr
  | invalidSeeds
  | maxSeedLengthExceeded
deriving DecidableEq, Repr

/-- One create-program-address attempt: rejects a seed vector with more than
16 components or a component longer than 32 bytes; rejects an address that is
a valid curve point. -/
def createProgramAddress (rt : Runtime) (seeds : List Bytes) (pid : Pubkey) :
    Except PubkeyErr Pubkey :=
  if 16 < seeds.length ∨ seeds.any (fun s => 32 < s.length) then
    .error .maxSeedLengthExceeded
  else if rt.onCurve (rt.pdaHash seeds pid) then .error .invalidSeeds
  else .ok (rt.pdaHash seeds pid)

/-- Descending bump search: try the bump values `b, b-1, ..., 1`; stop at the
first off-curve address; abort the whole search on a seed-length violation. -/
def findBumpAux (rt : Runtime) (seeds : List Bytes) (pid : Pubkey) :
    Nat → Option (Pubkey × Nat)
  | 0 => none
  | b + 1 =>
    match createProgramAddress rt (seeds ++ [[b + 1]]) pid with
    | .ok a => some (a, b + 1)
    | .error .invalidSeeds => findBumpAux rt seeds pid b
    | .error .maxSeedLengthExceeded => none

/-- find_program_address: the full search starting from bump 255. -/
def findProgramAddress (rt : Runtime) (seeds : List Bytes) (pid : Pubkey) :
    Option (Pubkey × Nat) :=
  findBumpAux rt seeds pid 255

/-- The collection-authority derivation used throughout the program:
seeds `[b"collection_authority", collection_seed]` under this program id. -/
def collectionAuthorityPda (rt : Runtime) (seed : Bytes) : Option (Pubkey × Nat) :=
  findProgramAddress rt [COLLECTION_AUTHORITY_SEED, seed] PROGRAM_ID

/-- The collection-authority derivation as written in the InitializeCollection
accounts struct (lib.rs lines 295-302). -/
def initAccountsAuthorityPda (rt : Runtime) (seed : Bytes) : Option (Pubkey × Nat) :=
  findProgramAddress rt [COLLECTION_AUTHORITY_SEED, seed] PROGRAM_ID

/-- The collection-authority derivation as written in the MintAndVerifyNft
accounts struct (lib.rs lines 393-401). -/
def mintAccountsAuthorityPda (rt : Runtime) (seed : Bytes) : Option (Pubkey × Nat) :=
  findProgramAddress rt [COLLECTION_AUTHORITY_SEED, seed] PROGRAM_ID

/-- The Metaplex metadata-record PDA for a mint:
seeds `[b"metadata", metadata_program_id, mint]` under the metadata program. -/
def metadataPda (rt : Runtime) (mint : Pubkey) : Option (Pubkey × Nat) :=
  findProgramAddress rt
    [METADATA_SEED, keyBytes TOKEN_METADATA_PROGRAM_ID, keyBytes mint]
    TOKEN_METADATA_PROGRAM_ID

/-- The Metaplex master-edition PDA for a mint:
seeds `[b"metadata", metadata_program_id, mint, b"edition"]`. -/
def masterEditionPda (rt : Runtime) (mint : Pubkey) : Option (Pubkey × Nat) :=
  findProgramAddress rt
    [METADATA_SEED, keyBytes TOKEN_METADATA_PROGRAM_ID, keyBytes mint, EDITION_SEED]
    TOKEN_METADATA_PROGRAM_ID

/-- The associated-token-account address for (owner, mint). -/
def associatedTokenAddress (rt : Runtime) (owner mint : Pubkey) : Option (Pubkey × Nat) :=
  findProgramAddress rt [keyBytes owner, keyBytes TOKEN_PROGRAM_ID, keyBytes mint]
    ATA_PROGRAM_ID

/-! ## On-chain account contents -/

/-- An SPL mint account. -/
structure MintState where
  decimals : Nat
  supply : Nat
  mintAuthority : Option Pubkey
  freezeAuthority : Option Pubkey
deriving DecidableEq, Repr

/-- An SPL token (holding) account. -/
structure TokenAccountState where
  mint : Pubkey
  owner : Pubkey
  amount : Nat
deriving DecidableEq, Repr

/-- One entry of a creator list (mpl_token_metadata Creator). -/
structure CreatorRec where
  address : Pubkey
  verified : Bool
  share : Nat
deriving DecidableEq, Repr

/-- The collection reference stored in a metadata record
(mpl_token_metadata Collection). -/
structure CollectionRef where
  verified : Bool
  key : Pubkey
deriving DecidableEq, Repr

/-- The descriptive data of a metadata record (mpl_token_metadata DataV2;
the unused `uses` field is omitted, both call sites pass None). -/
structure DataV2 where
  name : String
  symbol : String
  uri : String
  sellerFeeBasisPoints : Nat
  creators : Option (List CreatorRec)
  collection : Option CollectionRef
deriving DecidableEq, Repr

/-- A Metaplex metadata account. -/
structure MetadataState where
  mint : Pubkey
  updateAuthority : Pubkey
  data : DataV2
  isMutable : Bool
deriving DecidableEq, Repr

/-- A Metaplex master-edition account. -/
structure EditionState where
  mint : Pubkey
  maxSupply : Option Nat
deriving DecidableEq, Repr

/-- Lookup in an association list keyed by address. -/
def alookup {α : Type} : List (Pubkey × α) → Pubkey → Option α
  | [], _ => none
  | (k, v) :: t, x => if x = k then some v else alookup t x

/-- Insert-or-replace in an association list keyed by address. -/
def aset {α : Type} : List (Pubkey × α) → Pubkey → α → List (Pubkey × α)
  | [], k, v => [(k, v)]
  | (k0, v0) :: t, k, v =>
    if k = k0 then (k, v) :: t else (k0, v0) :: aset t k v

/-- The on-chain state the program touches: the four account stores, keyed by
address (a single global address space). -/
structure Chain where
  mints : List (Pubkey × MintState)
  tokenAccounts : List (Pubkey × TokenAccountState)
  metadatas : List (Pubkey × MetadataState)
  editions : List (Pubkey × EditionState)
deriving DecidableEq, Repr

/-- Whether an address is already allocated (in any of the stores). -/
def Chain.allocated (c : Chain) (k : Pubkey) : Bool :=
  (alookup c.mints k).isSome || (alookup c.tokenAccounts k).isSome ||
  (alookup c.metadatas k).isSome || (alookup c.editions k).isSome

/-! ## Errors -/

/-- The custom error enum declared in lib.rs (error_code AutoVerifyError). -/
inductive AutoVerifyError
  | InvalidCollectionAuthority
  | MetadataCreationFailed
  | VerificationFailed
  | Unauthorized
  | InvalidCollectionSeed
deriving DecidableEq, Repr

/-- Failure kinds of the external collaborators and of the framework account
validation, as surfaced verbatim to the caller. -/
inductive ForeignErr
  | accountAlreadyInUse
  | pdaDerivationFailed
  | mintNotFound
  | mintAuthorityMismatch
  | tokenAccountMismatch
  | metadataDataInvalid
  | metadataNotFound
  | editionCheckFailed
  | collectionCheckFailed
  | collectionAuthorityMismatch
deriving DecidableEq, Repr

/-- An error an instruction can surface: one of the custom codes declared by
the program, or a failure of an external service/the framework propagated
verbatim. -/
inductive ProgError
  | custom : AutoVerifyError → ProgError
  | foreign : ForeignErr → ProgError
deriving DecidableEq, Repr

/-- Whether an error is one of the custom codes declared by the program. -/
def ProgError.isCustom : ProgError → Bool
  | .custom _ => true
  | .foreign _ => false

/-- Decidable equality of instruction results. -/
instance exceptDecEq {ε α : Type} [DecidableEq ε] [DecidableEq α] :
    DecidableEq (Except ε α) := fun a b =>
  match a, b with
  | .ok x, .ok y =>
    if h : x = y then .isTrue (by rw [h]) else .isFalse (by intro hc; cases hc; exact h rfl)
  | .error x, .error y =>
    if h : x = y then .isTrue (by rw [h]) else .isFalse (by intro hc; cases hc; exact h rfl)
  | .ok _, .error _ => .isFalse (by intro hc; cases hc)
  | .error _, .ok _ => .isFalse (by intro hc; cases hc)

/-! ## CPI trace

Each handler issues a sequence of cross-program invocations; the model records
them, including which ones were invoked with program-derived signer seeds
(CpiContext::new_with_signer) and the update_authority_is_signer argument. -/

/-- One recorded cross-program invocation. -/
inductive Cpi
  | mintTo (mint dest authority amount : Nat) (pdaSigner : Option (List Bytes))
  | createMetadataV3 (metadataAddr mint mintAuthority payer updateAuthority : Pubkey)
      (d : DataV2) (isMutable updateAuthorityIsSigner : Bool)
      (pdaSigner : Option (List Bytes))
  | createMasterEditionV3
      (editionAddr mint updateAuthority mintAuthority payer metadataAddr : Pubkey)
      (maxSupply : Option Nat) (pdaSigner : Option (List Bytes))
  | verifyCollectionCpi
      (payer metadataAddr authority collectionMint : Pubkey)
      (collectionMetadataAddr collectionEditionAddr : Pubkey)
      (pdaSigner : Option (List Bytes))
deriving DecidableEq, Repr

/-! ## External service steps

Modelled from the spec (section 6), at the interface boundary of the
collaborators the handlers call. -/

/-- Modelled from the spec: the asset-ledger issue step (token::mint_to).
Requires the mint to exist with the presented authority and the destination
holding record to exist for that mint; adds the amount to both supply and the
destination balance. -/
def spl_mint_to (c : Chain) (mint dest authority amount : Nat) : Except ProgError Chain :=
  match alookup c.mints mint with
  | none => .error (.foreign .mintNotFound)
  | some m =>
    if m.mintAuthority ≠ some authority then .error (.foreign .mintAuthorityMismatch)
    else
      match alookup c.tokenAccounts dest with
      | none => .error (.foreign .tokenAccountMismatch)
      | some t =>
        if t.mint ≠ mint then .error (.foreign .tokenAccountMismatch)
        else .ok { c with
          mints := aset c.mints mint { m with supply := m.supply + amount },
          tokenAccounts :=
            aset c.tokenAccounts dest { t with amount := t.amount + amount } }

/-- Modelled from the spec: the registry register step
(create_metadata_accounts_v3).  Fails if the metadata address is already
allocated; rejects oversized fields (name over 32 bytes, symbol over 10, URI
over 200, royalty basis points over 10000) with its own data-validation
error; requires the presented mint authority to match the mint. -/
def mpl_create_metadata (c : Chain)
    (metadataAddr mint mintAuthority updateAuthority : Pubkey)
    (d : DataV2) (isMutable : Bool) : Except ProgError Chain :=
  if c.allocated metadataAddr then .error (.foreign .accountAlreadyInUse)
  else if MAX_METADATA_NAME_LENGTH < d.name.utf8ByteSize ∨
      MAX_METADATA_SYMBOL_LENGTH < d.symbol.utf8ByteSize ∨
      MAX_METADATA_URI_LENGTH < d.uri.utf8ByteSize ∨
      10000 < d.sellerFeeBasisPoints then
    .error (.foreign .metadataDataInvalid)
  else
    match alookup c.mints mint with
    | none => .error (.foreign .mintNotFound)
    | some m =>
      if m.mintAuthority ≠ some mintAuthority then
        .error (.foreign .mintAuthorityMismatch)
      else .ok { c with
        metadatas := aset c.metadatas metadataAddr
          ⟨mint, updateAuthority, d, isMutable⟩ }

/-- Modelled from the spec: the registry seal step (create_master_edition_v3).
Fails if the edition address is already allocated; requires the metadata to
exist and the mint to be non-divisible with supply exactly 1; records the
maximum supply and moves the mint and freeze authorities to the edition. -/
def mpl_create_master_edition (c : Chain)
    (editionAddr mint metadataAddr : Pubkey) (maxSupply : Option Nat) :
    Except ProgError Chain :=
  if c.allocated editionAddr then .error (.foreign .accountAlreadyInUse)
  else
    match alookup c.mints mint, alookup c.metadatas metadataAddr with
    | some m, some _ =>
      if m.decimals ≠ 0 ∨ m.supply ≠ 1 then .error (.foreign .editionCheckFailed)
      else .ok { c with
        mints := aset c.mints mint
          { m with mintAuthority := some editionAddr,
                   freezeAuthority := some editionAddr },
        editions := aset c.editions editionAddr ⟨mint, maxSupply⟩ }
    | _, _ => .error (.foreign .metadataNotFound)

/-- Modelled from the spec: the registry verify-membership step
(verify_collection).  Requires the item metadata to exist and carry a
collection reference whose key is the presented collection mint, the
collection metadata and sealed-edition records to exist and match that mint,
and, last, the presented authority to equal the update authority stored in
the collection metadata; on success durably sets the verified flag. -/
def mpl_verify_collection (c : Chain)
    (metadataAddr authority collectionMint : Pubkey)
    (collectionMetadataAddr collectionEditionAddr : Pubkey) :
    Except ProgError Chain :=
  match alookup c.metadatas metadataAddr with
  | none => .error (.foreign .metadataNotFound)
  | some nm =>
    match nm.data.collection with
    | none => .error (.foreign .collectionCheckFailed)
    | some col =>
      if col.key ≠ collectionMint then .error (.foreign .collectionCheckFailed)
      else
        match alookup c.metadatas collectionMetadataAddr with
        | none => .error (.foreign .metadataNotFound)
        | some cm =>
          if cm.mint ≠ collectionMint then .error (.foreign .collectionCheckFailed)
          else
            match alookup c.editions collectionEditionAddr with
            | none => .error (.foreign .editionCheckFailed)
            | some ce =>
              if ce.mint ≠ collectionMint then .error (.foreign .editionCheckFailed)
              else if cm.updateAuthority ≠ authority then
                .error (.foreign .collectionAuthorityMismatch)
              else .ok { c with
                metadatas := aset c.metadatas metadataAddr
                  { nm with data := { nm.data with collection := some ⟨true, col.key⟩ } } }

/-- Modelled from the spec: the framework `init` constraint on a mint account
(account allocation plus InitializeMint with decimals 0 and the payer as both
authorities, as written in the accounts structs). -/
def anchor_init_mint (c : Chain) (mintAddr authority : Pubkey) : Except ProgError Chain :=
  if c.allocated mintAddr then .error (.foreign .accountAlreadyInUse)
  else .ok { c with
    mints := aset c.mints mintAddr ⟨0, 0, some authority, some authority⟩ }

/-- Modelled from the spec: the framework `init` constraint on an associated
token account (allocation plus creation with zero balance). -/
def anchor_init_ata (c : Chain) (ataAddr mintAddr owner : Pubkey) : Except ProgError Chain :=
  if c.allocated ataAddr then .error (.foreign .accountAlreadyInUse)
  else .ok { c with
    tokenAccounts := aset c.tokenAccounts ataAddr ⟨mintAddr, owner, 0⟩ }

/-! ## Instruction arguments -/

/-- The CollectionMetadata argument struct from lib.rs. -/
structure CollectionMetadata where
  name : String
  symbol : String
  uri : String
  sellerFeeBasisPoints : Nat
deriving DecidableEq, Repr

/-- The NftMetadata argument struct from lib.rs. -/
structure NftMetadata where
  name : String
  symbol : String
  uri : String
  sellerFeeBasisPoints : Nat
deriving DecidableEq, Repr

/-- The DataV2 value built by the initialize_collection handler (lib.rs lines
51-65): creators = [(admin, verified = false, share = 100)], no collection
reference. -/
def mkCollectionData (admin : Pubkey) (md : CollectionMetadata) : DataV2 :=
  { name := md.name, symbol := md.symbol, uri := md.uri,
    sellerFeeBasisPoints := md.sellerFeeBasisPoints,
    creators := some [⟨admin, false, 100⟩],
    collection := none }

/-- The DataV2 value built by the mint_and_verify_nft handler (lib.rs lines
145-164): creators = [(user, verified = true, share = 100)], collection
reference = (verified = false, key = collection mint). -/
def mkNftData (user collectionMint : Pubkey) (md : NftMetadata) : DataV2 :=
  { name := md.name, symbol := md.symbol, uri := md.uri,
    sellerFeeBasisPoints := md.sellerFeeBasisPoints,
    creators := some [⟨user, true, 100⟩],
    collection := some ⟨false, collectionMint⟩ }

/-! ## The three instructions

Each instruction first performs the account validation generated from its
accounts struct, in field order, then runs the handler body.  The whole
invocation is one atomic unit: on any failure nothing commits. -/

/-- The initialize_collection instruction (lib.rs lines 19-110 with the
InitializeCollection accounts struct): validation creates the collection mint
(decimals 0, admin as authority) and the admin holding record and derives the
metadata, master-edition and collection-authority PDAs; the handler mints 1
unit to the admin, registers the metadata with the derived authority as
update authority signing through its seeds, and seals the master edition with
maximum supply 0. -/
def runInitCollection (rt : Runtime) (c : Chain) (admin mintAddr : Pubkey)
    (seed : Bytes) (md : CollectionMetadata) : Except ProgError (Chain × List Cpi) :=
  match anchor_init_mint c mintAddr admin with
  | .error e => .error e
  | .ok c1 =>
    match associatedTokenAddress rt admin mintAddr with
    | none => .error (.foreign .pdaDerivationFailed)
    | some (ataAddr, _) =>
      match anchor_init_ata c1 ataAddr mintAddr admin with
      | .error e => .error e
      | .ok c2 =>
        match metadataPda rt mintAddr with
        | none => .error (.foreign .pdaDerivationFailed)
        | some (metadataAddr, _) =>
          match masterEditionPda rt mintAddr with
          | none => .error (.foreign .pdaDerivationFailed)
          | some (editionAddr, _) =>
            match initAccountsAuthorityPda rt seed with
            | none => .error (.foreign .pdaDerivationFailed)
            | some (authPda, bump) =>
              match spl_mint_to c2 mintAddr ataAddr admin 1 with
              | .error e => .error e
              | .ok c3 =>
                match mpl_create_metadata c3 metadataAddr mintAddr admin authPda
                    (mkCollectionData admin md) true with
                | .error e => .error e
                | .ok c4 =>
                  match mpl_create_master_edition c4 editionAddr mintAddr
                      metadataAddr (some 0) with
                  | .error e => .error e
                  | .ok c5 =>
                    .ok (c5,
                      [.mintTo mintAddr ataAddr admin 1 none,
                       .createMetadataV3 metadataAddr mintAddr admin admin authPda
                         (mkCollectionData admin md) true true
                         (some [COLLECTION_AUTHORITY_SEED, seed, [bump]]),
                       .createMasterEditionV3 editionAddr mintAddr authPda admin
                         admin metadataAddr (some 0)
                         (some [COLLECTION_AUTHORITY_SEED, seed, [bump]])])

/-- The mint_and_verify_nft instruction (lib.rs lines 113-225 with the
MintAndVerifyNft accounts struct): validation creates the item mint and the
user holding record, derives the item metadata/edition PDAs, requires the
referenced collection mint to exist, derives the collection metadata/edition
PDAs and the collection-authority PDA from the supplied seed; the handler
mints 1 unit to the user, registers the item metadata (update authority = the
user, collection reference unverified), seals the master edition with maximum
supply 0, and finally calls the registry verify step with the derived
authority signing through its seeds. -/
def runMintAndVerify (rt : Runtime) (c : Chain) (user nftMintAddr collectionMint : Pubkey)
    (seed : Bytes) (md : NftMetadata) : Except ProgError (Chain × List Cpi) :=
  match anchor_init_mint c nftMintAddr user with
  | .error e => .error e
  | .ok c1 =>
    match associatedTokenAddress rt user nftMintAddr with
    | none => .error (.foreign .pdaDerivationFailed)
    | some (ataAddr, _) =>
      match anchor_init_ata c1 ataAddr nftMintAddr user with
      | .error e => .error e
      | .ok c2 =>
        match metadataPda rt nftMintAddr with
        | none => .error (.foreign .pdaDerivationFailed)
        | some (nftMetadataAddr, _) =>
          match masterEditionPda rt nftMintAddr with
          | none => .error (.foreign .pdaDerivationFailed)
          | some (nftEditionAddr, _) =>
            match alookup c2.mints collectionMint with
            | none => .error (.foreign .mintNotFound)
            | some _ =>
              match metadataPda rt collectionMint with
              | none => .error (.foreign .pdaDerivationFailed)
              | some (collMetadataAddr, _) =>
                match masterEditionPda rt collectionMint with
                | none => .error (.foreign .pdaDerivationFailed)
                | some (collEditionAddr, _) =>
                  match mintAccountsAuthorityPda rt seed with
                  | none => .error (.foreign .pdaDerivationFailed)
                  | some (authPda, bump) =>
                    match spl_mint_to c2 nftMintAddr ataAddr user 1 with
                    | .error e => .error e
                    | .ok c3 =>
                      match mpl_create_metadata c3 nftMetadataAddr nftMintAddr
                          user user (mkNftData user collectionMint md) true with
                      | .error e => .error e
                      | .ok c4 =>
                        match mpl_create_master_edition c4 nftEditionAddr
                            nftMintAddr nftMetadataAddr (some 0) with
                        | .error e => .error e
                        | .ok c5 =>
                          match mpl_verify_collection c5 nftMetadataAddr authPda
                              collectionMint collMetadataAddr collEditionAddr with
                          | .error e => .error e
                          | .ok c6 =>
                            .ok (c6,
                              [.mintTo nftMintAddr ataAddr user 1 none,
                               .createMetadataV3 nftMetadataAddr nftMintAddr user
                                 user user (mkNftData user collectionMint md)
                                 true true none,
                               .createMasterEditionV3 nftEditionAddr nftMintAddr
                                 user user user nftMetadataAddr (some 0) none,
                               .verifyCollectionCpi user nftMetadataAddr authPda
                                 collectionMint collMetadataAddr collEditionAddr
                                 (some [COLLECTION_AUTHORITY_SEED, seed, [bump]])])

set_option linter.unusedVariables false in
/-- The update_collection_authority instruction (lib.rs lines 228-237 with the
UpdateCollectionAuthority accounts struct): validation only derives the
collection-authority PDA from the supplied seed; the handler emits a
diagnostic message and returns Ok without touching any account.  The admin
and new-authority arguments are not used by the body. -/
def runUpdateAuthority (rt : Runtime) (c : Chain) (admin : Pubkey) (seed : Bytes)
    (newAuthority : Pubkey) : Except ProgError (Chain × List Cpi) :=
  match collectionAuthorityPda rt seed with
  | none => .error (.foreign .pdaDerivationFailed)
  | some _ => .ok (c, [])

/-- The state the execution environment commits after an invocation: the new
state on success, the unchanged pre-state on any failure (all-or-nothing
unit). -/
def committedChain (c : Chain) : Except ProgError (Chain × List Cpi) → Chain
  | .ok (c', _) => c'
  | .error _ => c

/-! ## Concrete runtime and scenario used by witnesses and counterexamples -/

/-- A concrete stand-in for the runtime hash over one seed component. -/
def hashBytesModel (l : Bytes) : Nat :=
  l.foldl (fun a b => a * 257 + b % 256 + 1) 7

/-- A concrete runtime: a collision-avoiding fold as the hash, and no address
on the curve (every bump search succeeds at 255). -/
def rt0 : Runtime :=
  { pdaHash := fun seeds pid =>
      (seeds.map hashBytesModel).foldl (fun a h => a * 1000003 + h) (pid + 13),
    onCurve := fun _ => false }

/-- The empty chain state. -/
def chain0 : Chain := ⟨[], [], [], []⟩

/-- A concrete collection seed. -/
def seedA : Bytes := strBytes "GEN1"

/-- A second, different concrete seed. -/
def seedB : Bytes := strBytes "OTHER"

/-- A concrete seed longer than 32 bytes. -/
def seedLong : Bytes := List.replicate 33 65

/-- Concrete collection metadata. -/
def mdA : CollectionMetadata := ⟨"Genesis", "GEN", "https://g", 500⟩

/-- Concrete item metadata. -/
def mdN : NftMetadata := ⟨"Genesis 1", "GEN", "https://g1", 500⟩

/-- The chain after bootstrapping the concrete collection (admin = 1,
collection mint address = 1000, seed = seedA). -/
def chain1 : Chain :=
  committedChain chain0 (runInitCollection rt0 chain0 1 1000 seedA mdA)

/-- The trace of the concrete bootstrap. -/
def trace1 : List Cpi :=
  match runInitCollection rt0 chain0 1 1000 seedA mdA with
  | .ok (_, tr) => tr
  | .error _ => []

/-- The address component of a derivation result (0 when the derivation failed). -/
def pdaAddr (o : Option (Pubkey × Nat)) : Pubkey := (o.getD (0, 0)).1

/-- The bump component of a derivation result (0 when the derivation failed). -/
def pdaBump (o : Option (Pubkey × Nat)) : Nat := (o.getD (0, 0)).2

/-- Concrete collection metadata whose name field is 33 bytes long. -/
def mdBig : CollectionMetadata :=
  ⟨"AAAAAAAAAAAAAAAAAAAAAAAAAAAAAAAAA", "GEN", "https://g", 500⟩

/-- The chain after the concrete bootstrap followed by a same-seed issuance
(user = 2, item mint address = 2000, seed = seedA). -/
def chain2 : Chain :=
  committedChain chain1 (runMintAndVerify rt0 chain1 2 2000 1000 seedA mdN)

/-- The trace of the concrete same-seed issuance. -/
def trace2 : List Cpi :=
  match runMintAndVerify rt0 chain1 2 2000 1000 seedA mdN with
  | .ok (_, tr) => tr
  | .error _ => []

/-- The program-derived signer seeds carried by the metadata-registration CPI
(the second invocation of a handler trace), when that position holds a
registration call. -/
def registrationSigner (tr : List Cpi) : Option (Option (List Bytes)) :=
  match tr.get? 1 with
  | some (.createMetadataV3 _ _ _ _ _ _ _ _ ps) => some ps
  | _ => none

theorem initA_ok : runInitCollection rt0 chain0 1 1000 seedA mdA = .ok (chain1, trace1) := by
  decide

/-! ## Association-list lemmas -/

theorem alookup_aset_self {α : Type} (l : List (Pubkey × α)) (k : Pubkey) (v : α) :
    alookup (aset l k v) k = some v := by
  induction l with
  | nil => simp [aset, alookup]
  | cons hd t ih =>
    obtain ⟨k0, v0⟩ := hd
    by_cases hk : k = k0
    · simp [aset, hk, alookup]
    · simp [aset, hk, alookup, ih]

theorem alookup_aset_ne {α : Type} (l : List (Pubkey × α)) (k x : Pubkey) (v : α)
    (h : x ≠ k) : alookup (aset l k v) x = alookup l x := by
  induction l with
  | nil => simp [aset, alookup, h]
  | cons hd t ih =>
    obtain ⟨k0, v0⟩ := hd
    by_cases hk : k = k0
    · subst hk; simp [aset, alookup, h]
    · by_cases hx : x = k0 <;> simp [aset, hk, alookup, hx, ih]

theorem allocated_false {c : Chain} {k : Pubkey} (h : c.allocated k = false) :
    alookup c.mints k = none ∧ alookup c.tokenAccounts k = none ∧
    alookup c.metadatas k = none ∧ alookup c.editions k = none := by
  unfold Chain.allocated at h
  rcases h1 : alookup c.mints k with _ | v1 <;> rw [h1] at h <;>
    rcases h2 : alookup c.tokenAccounts k with _ | v2 <;> rw [h2] at h <;>
      rcases h3 : alookup c.metadatas k with _ | v3 <;> rw [h3] at h <;>
        rcases h4 : alookup c.editions k with _ | v4 <;> rw [h4] at h <;>
          simp_all

/-! ## Derivation lemmas -/

theorem findBumpAux_seed_long (rt : Runtime) (pid : Pubkey) (tag s : Bytes)
    (h : 32 < s.length) (b : Nat) : findBumpAux rt [tag, s] pid b = none := by
  cases b with
  | zero => rfl
  | succ n =>
    unfold findBumpAux
    have hc : createProgramAddress rt ([tag, s] ++ [[n + 1]]) pid =
        .error .maxSeedLengthExceeded := by
      unfold createProgramAddress
      rw [if_pos]
      right
      simp only [List.cons_append, List.nil_append, List.any_cons, List.any_nil,
        Bool.or_eq_true, decide_eq_true_eq]
      right; left; exact h
    rw [hc]

theorem collectionAuthorityPda_seed_long (rt : Runtime) (s : Bytes)
    (h : 32 < s.length) : collectionAuthorityPda rt s = none :=
  findBumpAux_seed_long rt PROGRAM_ID COLLECTION_AUTHORITY_SEED s h 255

/-! ## Inversion lemmas for the modelled service steps -/

theorem anchor_init_mint_ok {c c' : Chain} {a auth : Pubkey}
    (h : anchor_init_mint c a auth = .ok c') :
    c.allocated a = false ∧
    c' = { c with mints := aset c.mints a ⟨0, 0, some auth, some auth⟩ } := by
  unfold anchor_init_mint at h
  split at h
  · exact absurd h (by simp)
  next halloc =>
    refine ⟨by simpa using halloc, ?_⟩
    injection h with h
    exact h.symm

theorem anchor_init_ata_ok {c c' : Chain} {a m o : Pubkey}
    (h : anchor_init_ata c a m o = .ok c') :
    c.allocated a = false ∧
    c' = { c with tokenAccounts := aset c.tokenAccounts a ⟨m, o, 0⟩ } := by
  unfold anchor_init_ata at h
  split at h
  · exact absurd h (by simp)
  next halloc =>
    refine ⟨by simpa using halloc, ?_⟩
    injection h with h
    exact h.symm

theorem spl_mint_to_ok {c c' : Chain} {mint dest auth amt : Nat}
    (h : spl_mint_to c mint dest auth amt = .ok c') :
    ∃ m t, alookup c.mints mint = some m ∧ m.mintAuthority = some auth ∧
      alookup c.tokenAccounts dest = some t ∧ t.mint = mint ∧
      c' = { c with
        mints := aset c.mints mint { m with supply := m.supply + amt },
        tokenAccounts := aset c.tokenAccounts dest { t with amount := t.amount + amt } } := by
  unfold spl_mint_to at h
  split at h
  · exact absurd h (by simp)
  next m hm =>
    split at h
    · exact absurd h (by simp)
    next hauth =>
      split at h
      · exact absurd h (by simp)
      next t ht =>
        split at h
        · exact absurd h (by simp)
        next hmint =>
          refine ⟨m, t, hm, by simpa using hauth, ht, by simpa using hmint, ?_⟩
          injection h with h
          exact h.symm

theorem mpl_create_metadata_ok {c c' : Chain} {metadataAddr mint mintAuth updAuth : Pubkey}
    {d : DataV2} {mtb : Bool}
    (h : mpl_create_metadata c metadataAddr mint mintAuth updAuth d mtb = .ok c') :
    ∃ m, c.allocated metadataAddr = false ∧
      alookup c.mints mint = some m ∧ m.mintAuthority = some mintAuth ∧
      d.name.utf8ByteSize ≤ MAX_METADATA_NAME_LENGTH ∧
      d.symbol.utf8ByteSize ≤ MAX_METADATA_SYMBOL_LENGTH ∧
      d.uri.utf8ByteSize ≤ MAX_METADATA_URI_LENGTH ∧
      d.sellerFeeBasisPoints ≤ 10000 ∧
      c' = { c with
        metadatas := aset c.metadatas metadataAddr ⟨mint, updAuth, d, mtb⟩ } := by
  unfold mpl_create_metadata at h
  split at h
  · exact absurd h (by simp)
  next halloc =>
    split at h
    · exact absurd h (by simp)
    next hsize =>
      split at h
      · exact absurd h (by simp)
      next m hm =>
        split at h
        · exact absurd h (by simp)
        next hauth =>
          push_neg at hsize
          refine ⟨m, by simpa using halloc, hm, by simpa using hauth,
            hsize.1, hsize.2.1, hsize.2.2.1, hsize.2.2.2, ?_⟩
          injection h with h
          exact h.symm

theorem mpl_create_master_edition_ok {c c' : Chain} {editionAddr mint metadataAddr : Pubkey}
    {ms : Option Nat}
    (h : mpl_create_master_edition c editionAddr mint metadataAddr ms = .ok c') :
    ∃ m md, c.allocated editionAddr = false ∧
      alookup c.mints mint = some m ∧ alookup c.metadatas metadataAddr = some md ∧
      m.decimals = 0 ∧ m.supply = 1 ∧
      c' = { c with
        mints := aset c.mints mint
          { m with mintAuthority := some editionAddr,
                   freezeAuthority := some editionAddr },
        editions := aset c.editions editionAddr ⟨mint, ms⟩ } := by
  unfold mpl_create_master_edition at h
  split at h
  · exact absurd h (by simp)
  next halloc =>
    split at h
    next m md hm hmd =>
      split at h
      · exact absurd h (by simp)
      next hcheck =>
        push_neg at hcheck
        refine ⟨m, md, by simpa using halloc, hm, hmd, hcheck.1, hcheck.2, ?_⟩
        injection h with h
        exact h.symm
    next hnone => exact absurd h (by simp)

theorem mpl_verify_collection_ok {c c' : Chain}
    {metadataAddr authority collectionMint collMetadataAddr collEditionAddr : Pubkey}
    (h : mpl_verify_collection c metadataAddr authority collectionMint
      collMetadataAddr collEditionAddr = .ok c') :
    ∃ nm col cm ce, alookup c.metadatas metadataAddr = some nm ∧
      nm.data.collection = some col ∧ col.key = collectionMint ∧
      alookup c.metadatas collMetadataAddr = some cm ∧ cm.mint = collectionMint ∧
      alookup c.editions collEditionAddr = some ce ∧ ce.mint = collectionMint ∧
      cm.updateAuthority = authority ∧
      c' = { c with
        metadatas := aset c.metadatas metadataAddr
          { nm with data := { nm.data with collection := some ⟨true, col.key⟩ } } } := by
  unfold mpl_verify_collection at h
  split at h
  · exact absurd h (by simp)
  next nm hnm =>
    split at h
    · exact absurd h (by simp)
    next col hcol =>
      split at h
      · exact absurd h (by simp)
      next hkey =>
        split at h
        · exact absurd h (by simp)
        next cm hcm =>
          split at h
          · exact absurd h (by simp)
          next hcmmint =>
            split at h
            · exact absurd h (by simp)
            next ce hce =>
              split at h
              · exact absurd h (by simp)
              next hcemint =>
                split at h
                · exact absurd h (by simp)
                next hupd =>
                  refine ⟨nm, col, cm, ce, hnm, hcol, by simpa using hkey, hcm,
                    by simpa using hcmmint, hce, by simpa using hcemint,
                    by simpa using hupd, ?_⟩
                  injection h with h
                  exact h.symm

/-! ## Inversion of a successful initialize_collection run -/

theorem runInit_ok_inv {rt : Runtime} {c : Chain} {admin mintAddr : Pubkey} {seed : Bytes}
    {md : CollectionMetadata} {out : Chain × List Cpi}
    (h : runInitCollection rt c admin mintAddr seed md = .ok out) :
    ∃ ataAddr metadataAddr editionAddr authPda bump,
      initAccountsAuthorityPda rt seed = some (authPda, bump) ∧
      alookup out.1.tokenAccounts ataAddr = some ⟨mintAddr, admin, 1⟩ ∧
      alookup out.1.mints mintAddr = some ⟨0, 1, some editionAddr, some editionAddr⟩ ∧
      alookup out.1.metadatas metadataAddr =
        some ⟨mintAddr, authPda, mkCollectionData admin md, true⟩ ∧
      alookup out.1.editions editionAddr = some ⟨mintAddr, some 0⟩ ∧
      out.2 = [.mintTo mintAddr ataAddr admin 1 none,
        .createMetadataV3 metadataAddr mintAddr admin admin authPda
          (mkCollectionData admin md) true true
          (some [COLLECTION_AUTHORITY_SEED, seed, [bump]]),
        .createMasterEditionV3 editionAddr mintAddr authPda admin admin metadataAddr
          (some 0) (some [COLLECTION_AUTHORITY_SEED, seed, [bump]])] := by
  obtain ⟨cf, tr⟩ := out
  unfold runInitCollection at h
  rcases h1 : anchor_init_mint c mintAddr admin with e | c1 <;> simp only [h1] at h
  · simp at h
  rcases h2 : associatedTokenAddress rt admin mintAddr with _ | ⟨ataAddr, ab⟩ <;>
    simp only [h2] at h
  · simp at h
  rcases h3 : anchor_init_ata c1 ataAddr mintAddr admin with e | c2 <;> simp only [h3] at h
  · simp at h
  rcases h4 : metadataPda rt mintAddr with _ | ⟨metadataAddr, mb⟩ <;> simp only [h4] at h
  · simp at h
  rcases h5 : masterEditionPda rt mintAddr with _ | ⟨editionAddr, eb⟩ <;> simp only [h5] at h
  · simp at h
  rcases h6 : initAccountsAuthorityPda rt seed with _ | ⟨authPda, bump⟩ <;> simp only [h6] at h
  · simp at h
  rcases h7 : spl_mint_to c2 mintAddr ataAddr admin 1 with e | c3 <;> simp only [h7] at h
  · simp at h
  rcases h8 : mpl_create_metadata c3 metadataAddr mintAddr admin authPda
      (mkCollectionData admin md) true with e | c4 <;> simp only [h8] at h
  · simp at h
  rcases h9 : mpl_create_master_edition c4 editionAddr mintAddr metadataAddr (some 0)
      with e | c5 <;> simp only [h9] at h
  · simp at h
  simp only [Except.ok.injEq, Prod.mk.injEq] at h
  obtain ⟨hcf, htr⟩ := h
  obtain ⟨-, hc1⟩ := anchor_init_mint_ok h1
  subst hc1
  obtain ⟨-, hc2⟩ := anchor_init_ata_ok h3
  subst hc2
  obtain ⟨m, t, hm, -, ht, -, hc3⟩ := spl_mint_to_ok h7
  dsimp only at hm ht
  rw [alookup_aset_self] at hm ht
  injection hm with hm
  injection ht with ht
  subst hm ht hc3
  obtain ⟨m', -, hm', -, -, -, -, -, hc4⟩ := mpl_create_metadata_ok h8
  dsimp only at hm'
  rw [alookup_aset_self] at hm'
  injection hm' with hm'
  subst hm' hc4
  obtain ⟨m'', md'', -, hm'', -, -, -, hc5⟩ := mpl_create_master_edition_ok h9
  dsimp only at hm''
  rw [alookup_aset_self] at hm''
  injection hm'' with hm''
  subst hm'' hc5
  subst hcf htr
  refine ⟨ataAddr, metadataAddr, editionAddr, authPda, bump, rfl, ?_, ?_, ?_, ?_, rfl⟩
  · simp [alookup_aset_self]
  · simp [alookup_aset_self]
  · simp [alookup_aset_self]
  · simp [alookup_aset_self]

/-! ## Inversion of a successful mint_and_verify_nft run -/

theorem runMint_ok_inv {rt : Runtime} {c : Chain} {user nftMintAddr collectionMint : Pubkey}
    {seed : Bytes} {md : NftMetadata} {out : Chain × List Cpi}
    (h : runMintAndVerify rt c user nftMintAddr collectionMint seed md = .ok out) :
    ∃ ataAddr nftMetadataAddr nftEditionAddr collMetadataAddr collEditionAddr authPda bump,
      mintAccountsAuthorityPda rt seed = some (authPda, bump) ∧
      alookup out.1.tokenAccounts ataAddr = some ⟨nftMintAddr, user, 1⟩ ∧
      alookup out.1.mints nftMintAddr =
        some ⟨0, 1, some nftEditionAddr, some nftEditionAddr⟩ ∧
      alookup out.1.metadatas nftMetadataAddr = some ⟨nftMintAddr, user,
        { mkNftData user collectionMint md with
            collection := some ⟨true, collectionMint⟩ }, true⟩ ∧
      alookup out.1.editions nftEditionAddr = some ⟨nftMintAddr, some 0⟩ ∧
      out.2 = [.mintTo nftMintAddr ataAddr user 1 none,
        .createMetadataV3 nftMetadataAddr nftMintAddr user user user
          (mkNftData user collectionMint md) true true none,
        .createMasterEditionV3 nftEditionAddr nftMintAddr user user user
          nftMetadataAddr (some 0) none,
        .verifyCollectionCpi user nftMetadataAddr authPda collectionMint
          collMetadataAddr collEditionAddr
          (some [COLLECTION_AUTHORITY_SEED, seed, [bump]])] := by
  obtain ⟨cf, tr⟩ := out
  unfold runMintAndVerify at h
  rcases h1 : anchor_init_mint c nftMintAddr user with e | c1 <;> simp only [h1] at h
  · simp at h
  rcases h2 : associatedTokenAddress rt user nftMintAddr with _ | ⟨ataAddr, ab⟩ <;>
    simp only [h2] at h
  · simp at h
  rcases h3 : anchor_init_ata c1 ataAddr nftMintAddr user with e | c2 <;>
    simp only [h3] at h
  · simp at h
  rcases h4 : metadataPda rt nftMintAddr with _ | ⟨nftMetadataAddr, mb⟩ <;>
    simp only [h4] at h
  · simp at h
  rcases h5 : masterEditionPda rt nftMintAddr with _ | ⟨nftEditionAddr, eb⟩ <;>
    simp only [h5] at h
  · simp at h
  rcases h6 : alookup c2.mints collectionMint with _ | cmState <;> simp only [h6] at h
  · simp at h
  rcases h7 : metadataPda rt collectionMint with _ | ⟨collMetadataAddr, cmb⟩ <;>
    simp only [h7] at h
  · simp at h
  rcases h8 : masterEditionPda rt collectionMint with _ | ⟨collEditionAddr, ceb⟩ <;>
    simp only [h8] at h
  · simp at h
  rcases h9 : mintAccountsAuthorityPda rt seed with _ | ⟨authPda, bump⟩ <;>
    simp only [h9] at h
  · simp at h
  rcases h10 : spl_mint_to c2 nftMintAddr ataAddr user 1 with e | c3 <;>
    simp only [h10] at h
  · simp at h
  rcases h11 : mpl_create_metadata c3 nftMetadataAddr nftMintAddr user user
      (mkNftData user collectionMint md) true with e | c4 <;> simp only [h11] at h
  · simp at h
  rcases h12 : mpl_create_master_edition c4 nftEditionAddr nftMintAddr nftMetadataAddr
      (some 0) with e | c5 <;> simp only [h12] at h
  · simp at h
  rcases h13 : mpl_verify_collection c5 nftMetadataAddr authPda collectionMint
      collMetadataAddr collEditionAddr with e | c6 <;> simp only [h13] at h
  · simp at h
  simp only [Except.ok.injEq, Prod.mk.injEq] at h
  obtain ⟨hcf, htr⟩ := h
  obtain ⟨-, hc1⟩ := anchor_init_mint_ok h1
  subst hc1
  obtain ⟨-, hc2⟩ := anchor_init_ata_ok h3
  subst hc2
  obtain ⟨m, t, hm, -, ht, -, hc3⟩ := spl_mint_to_ok h10
  dsimp only at hm ht
  rw [alookup_aset_self] at hm ht
  injection hm with hm
  injection ht with ht
  subst hm ht hc3
  obtain ⟨m', -, hm', -, -, -, -, -, hc4⟩ := mpl_create_metadata_ok h11
  dsimp only at hm'
  rw [alookup_aset_self] at hm'
  injection hm' with hm'
  subst hm' hc4
  obtain ⟨m'', md'', -, hm'', -, -, -, hc5⟩ := mpl_create_master_edition_ok h12
  dsimp only at hm''
  rw [alookup_aset_self] at hm''
  injection hm'' with hm''
  subst hm'' hc5
  obtain ⟨nm, col, cm, ce, hnm, hcol, -, -, -, -, -, -, hc6⟩ :=
    mpl_verify_collection_ok h13
  dsimp only at hnm
  rw [alookup_aset_self] at hnm
  injection hnm with hnm
  subst hnm
  dsimp only [mkNftData] at hcol
  injection hcol with hcol
  subst hcol hc6
  subst hcf htr
  refine ⟨ataAddr, nftMetadataAddr, nftEditionAddr, collMetadataAddr, collEditionAddr,
    authPda, bump, rfl, ?_, ?_, ?_, ?_, rfl⟩
  · simp [alookup_aset_self]
  · simp [alookup_aset_self]
  · simp [alookup_aset_self, mkNftData]
  · simp [alookup_aset_self]

/-! ## Error classification: every surfaced error is a propagated foreign one -/

theorem err_foreign_shape {α : Type} {e : ProgError} (h : ∃ f, e = .foreign f) :
    ∃ f, (Except.error e : Except ProgError α) = .error (.foreign f) := by
  obtain ⟨f, rfl⟩ := h
  exact ⟨f, rfl⟩

theorem anchor_init_mint_error {c : Chain} {a auth : Pubkey} {e : ProgError}
    (h : anchor_init_mint c a auth = .error e) : ∃ f, e = .foreign f := by
  unfold anchor_init_mint at h
  split at h
  · injection h with h
    exact ⟨_, h.symm⟩
  · simp at h

theorem anchor_init_ata_error {c : Chain} {a m o : Pubkey} {e : ProgError}
    (h : anchor_init_ata c a m o = .error e) : ∃ f, e = .foreign f := by
  unfold anchor_init_ata at h
  split at h
  · injection h with h
    exact ⟨_, h.symm⟩
  · simp at h

theorem spl_mint_to_error {c : Chain} {mint dest auth amt : Nat} {e : ProgError}
    (h : spl_mint_to c mint dest auth amt = .error e) : ∃ f, e = .foreign f := by
  unfold spl_mint_to at h
  repeat' split at h
  all_goals first
    | (injection h with h; exact ⟨_, h.symm⟩)
    | simp at h

theorem mpl_create_metadata_error {c : Chain} {metadataAddr mint mintAuth updAuth : Pubkey}
    {d : DataV2} {mtb : Bool} {e : ProgError}
    (h : mpl_create_metadata c metadataAddr mint mintAuth updAuth d mtb = .error e) :
    ∃ f, e = .foreign f := by
  unfold mpl_create_metadata at h
  repeat' split at h
  all_goals first
    | (injection h with h; exact ⟨_, h.symm⟩)
    | simp at h

theorem mpl_create_master_edition_error {c : Chain} {editionAddr mint metadataAddr : Pubkey}
    {ms : Option Nat} {e : ProgError}
    (h : mpl_create_master_edition c editionAddr mint metadataAddr ms = .error e) :
    ∃ f, e = .foreign f := by
  unfold mpl_create_master_edition at h
  repeat' split at h
  all_goals first
    | (injection h with h; exact ⟨_, h.symm⟩)
    | simp at h

theorem mpl_verify_collection_error {c : Chain}
    {metadataAddr authority collectionMint collMetadataAddr collEditionAddr : Pubkey}
    {e : ProgError}
    (h : mpl_verify_collection c metadataAddr authority collectionMint
      collMetadataAddr collEditionAddr = .error e) : ∃ f, e = .foreign f := by
  unfold mpl_verify_collection at h
  repeat' split at h
  all_goals first
    | (injection h with h; exact ⟨_, h.symm⟩)
    | simp at h

theorem runInit_error_foreign {rt : Runtime} {c : Chain} {admin mintAddr : Pubkey}
    {seed : Bytes} {md : CollectionMetadata} {e : ProgError}
    (h : runInitCollection rt c admin mintAddr seed md = .error e) :
    ∃ f, e = .foreign f := by
  unfold runInitCollection at h
  repeat' split at h
  all_goals first
    | (injection h with h; exact ⟨_, h.symm⟩)
    | (injection h with h; subst h;
       solve_by_elim [anchor_init_mint_error, anchor_init_ata_error, spl_mint_to_error,
         mpl_create_metadata_error, mpl_create_master_edition_error])
    | simp at h

theorem runMint_error_foreign {rt : Runtime} {c : Chain}
    {user nftMintAddr collectionMint : Pubkey} {seed : Bytes} {md : NftMetadata}
    {e : ProgError}
    (h : runMintAndVerify rt c user nftMintAddr collectionMint seed md = .error e) :
    ∃ f, e = .foreign f := by
  unfold runMintAndVerify at h
  repeat' split at h
  all_goals first
    | (injection h with h; exact ⟨_, h.symm⟩)
    | (injection h with h; subst h;
       solve_by_elim [anchor_init_mint_error, anchor_init_ata_error, spl_mint_to_error,
         mpl_create_metadata_error, mpl_create_master_edition_error,
         mpl_verify_collection_error])
    | simp at h

theorem runUpdate_error_foreign {rt : Runtime} {c : Chain} {admin : Pubkey}
    {seed : Bytes} {newAuthority : Pubkey} {e : ProgError}
    (h : runUpdateAuthority rt c admin seed newAuthority = .error e) :
    ∃ f, e = .foreign f := by
  unfold runUpdateAuthority at h
  split at h
  · injection h with h
    exact ⟨_, h.symm⟩
  · simp at h

/-! ## Failure of every operation on an over-long seed -/

theorem runInit_long_seed (rt : Runtime) (c : Chain) (admin mintAddr : Pubkey)
    {seed : Bytes} (cmd : CollectionMetadata) (h : 32 < seed.length) :
    ∃ f, runInitCollection rt c admin mintAddr seed cmd = .error (.foreign f) := by
  have h6 : initAccountsAuthorityPda rt seed = none :=
    findBumpAux_seed_long rt PROGRAM_ID COLLECTION_AUTHORITY_SEED seed h 255
  unfold runInitCollection
  repeat' split
  all_goals first
    | exact ⟨_, rfl⟩
    | solve_by_elim [err_foreign_shape, anchor_init_mint_error, anchor_init_ata_error,
        spl_mint_to_error, mpl_create_metadata_error, mpl_create_master_edition_error]
    | simp_all

theorem runMint_long_seed (rt : Runtime) (c : Chain)
    (user nftMintAddr collectionMint : Pubkey) {seed : Bytes} (nmd : NftMetadata)
    (h : 32 < seed.length) :
    ∃ f, runMintAndVerify rt c user nftMintAddr collectionMint seed nmd =
      .error (.foreign f) := by
  have h9 : mintAccountsAuthorityPda rt seed = none :=
    findBumpAux_seed_long rt PROGRAM_ID COLLECTION_AUTHORITY_SEED seed h 255
  unfold runMintAndVerify
  repeat' split
  all_goals first
    | exact ⟨_, rfl⟩
    | solve_by_elim [err_foreign_shape, anchor_init_mint_error, anchor_init_ata_error,
        spl_mint_to_error, mpl_create_metadata_error, mpl_create_master_edition_error,
        mpl_verify_collection_error]
    | simp_all

theorem runUpdate_long_seed (rt : Runtime) (c : Chain) (admin : Pubkey) {seed : Bytes}
    (newAuthority : Pubkey) (h : 32 < seed.length) :
    runUpdateAuthority rt c admin seed newAuthority =
      .error (.foreign .pdaDerivationFailed) := by
  have hn : collectionAuthorityPda rt seed = none :=
    collectionAuthorityPda_seed_long rt seed h
  unfold runUpdateAuthority
  rw [hn]

/-! ## Forward computation lemmas: pinpointing the failing step -/

theorem runInit_oversized_metadata (rt : Runtime) (c : Chain) (admin mintAddr : Pubkey)
    (seed : Bytes) (cmd : CollectionMetadata)
    {ataAddr ab metadataAddr mb editionAddr eb authPda bump : Nat}
    (hata : associatedTokenAddress rt admin mintAddr = some (ataAddr, ab))
    (hmeta : metadataPda rt mintAddr = some (metadataAddr, mb))
    (hed : masterEditionPda rt mintAddr = some (editionAddr, eb))
    (hauth : initAccountsAuthorityPda rt seed = some (authPda, bump))
    (hfm : c.allocated mintAddr = false)
    (hfa : c.allocated ataAddr = false)
    (hfd : c.allocated metadataAddr = false)
    (hne1 : ataAddr ≠ mintAddr)
    (hne2 : metadataAddr ≠ mintAddr)
    (hne3 : metadataAddr ≠ ataAddr)
    (hov : MAX_METADATA_NAME_LENGTH < cmd.name.utf8ByteSize ∨
      MAX_METADATA_SYMBOL_LENGTH < cmd.symbol.utf8ByteSize ∨
      MAX_METADATA_URI_LENGTH < cmd.uri.utf8ByteSize ∨
      10000 < cmd.sellerFeeBasisPoints) :
    runInitCollection rt c admin mintAddr seed cmd =
      .error (.foreign .metadataDataInvalid) := by
  obtain ⟨h1m, h1t, h1md, h1e⟩ := allocated_false hfm
  obtain ⟨h2m, h2t, h2md, h2e⟩ := allocated_false hfa
  obtain ⟨h3m, h3t, h3md, h3e⟩ := allocated_false hfd
  unfold runInitCollection anchor_init_mint anchor_init_ata spl_mint_to
    mpl_create_metadata mkCollectionData
  simp [Chain.allocated, hata, hmeta, hed, hauth, alookup_aset_self, alookup_aset_ne,
    hne1, hne2, hne3, h1m, h1t, h1md, h1e, h2m, h2t, h2md, h2e, h3m, h3t, h3md, h3e,
    hov]

theorem runMint_authority_mismatch (rt : Runtime) (c : Chain)
    (user nftMintAddr collectionMint : Pubkey) (seed : Bytes) (nmd : NftMetadata)
    {ataAddr ab nftMetadataAddr mb nftEditionAddr eb : Nat}
    {collMetadataAddr cmb collEditionAddr ceb authPda bump : Nat}
    {cMint : MintState} {cm : MetadataState} {ce : EditionState}
    (hata : associatedTokenAddress rt user nftMintAddr = some (ataAddr, ab))
    (hmeta : metadataPda rt nftMintAddr = some (nftMetadataAddr, mb))
    (hed : masterEditionPda rt nftMintAddr = some (nftEditionAddr, eb))
    (hcmeta : metadataPda rt collectionMint = some (collMetadataAddr, cmb))
    (hced : masterEditionPda rt collectionMint = some (collEditionAddr, ceb))
    (hauth : mintAccountsAuthorityPda rt seed = some (authPda, bump))
    (hfm : c.allocated nftMintAddr = false)
    (hfa : c.allocated ataAddr = false)
    (hfd : c.allocated nftMetadataAddr = false)
    (hfe : c.allocated nftEditionAddr = false)
    (hne1 : ataAddr ≠ nftMintAddr)
    (hne2 : nftMetadataAddr ≠ nftMintAddr)
    (hne3 : nftMetadataAddr ≠ ataAddr)
    (hne4 : nftEditionAddr ≠ nftMintAddr)
    (hne5 : nftEditionAddr ≠ ataAddr)
    (hne6 : nftEditionAddr ≠ nftMetadataAddr)
    (hne7 : collectionMint ≠ nftMintAddr)
    (hne8 : collMetadataAddr ≠ nftMetadataAddr)
    (hne9 : collEditionAddr ≠ nftEditionAddr)
    (hcm : alookup c.mints collectionMint = some cMint)
    (hsz : ¬ (MAX_METADATA_NAME_LENGTH < nmd.name.utf8ByteSize ∨
      MAX_METADATA_SYMBOL_LENGTH < nmd.symbol.utf8ByteSize ∨
      MAX_METADATA_URI_LENGTH < nmd.uri.utf8ByteSize ∨
      10000 < nmd.sellerFeeBasisPoints))
    (hcmd : alookup c.metadatas collMetadataAddr = some cm)
    (hmm : cm.mint = collectionMint)
    (hce : alookup c.editions collEditionAddr = some ce)
    (hcem : ce.mint = collectionMint)
    (hneq : cm.updateAuthority ≠ authPda) :
    runMintAndVerify rt c user nftMintAddr collectionMint seed nmd =
      .error (.foreign .collectionAuthorityMismatch) := by
  obtain ⟨h1m, h1t, h1md, h1e⟩ := allocated_false hfm
  obtain ⟨h2m, h2t, h2md, h2e⟩ := allocated_false hfa
  obtain ⟨h3m, h3t, h3md, h3e⟩ := allocated_false hfd
  obtain ⟨h4m, h4t, h4md, h4e⟩ := allocated_false hfe
  unfold runMintAndVerify anchor_init_mint anchor_init_ata spl_mint_to
    mpl_create_metadata mpl_create_master_edition mpl_verify_collection mkNftData
  simp [Chain.allocated, hata, hmeta, hed, hcmeta, hced, hauth, alookup_aset_self,
    alookup_aset_ne, hne1, hne2, hne3, hne4, hne5, hne6, hne7, hne8, hne9,
    h1m, h1t, h1md, h1e, h2m, h2t, h2md, h2e, h3m, h3t, h3md, h3e,
    h4m, h4t, h4md, h4e, hcm, hsz, hcmd, hmm, hce, hcem, hneq]

/-! ## Concrete scenario evaluations -/

theorem mintA_ok :
    runMintAndVerify rt0 chain1 2 2000 1000 seedA mdN = .ok (chain2, trace2) := by
  decide

/-! ## The claims -/

set_option linter.unusedVariables false in
/-- Claim C6: authority derivation is deterministic: for every valid seed
(at most 32 bytes) the derivation written in the InitializeCollection accounts
struct and the one written in the MintAndVerifyNft accounts struct produce the
identical address and bump, and both agree with the single derivation
function; being pure functions of the seed, any two runs on the same seed
return the same result. -/
theorem C6_derivation_deterministic (rt : Runtime) (s : Bytes)
    (h : s.length ≤ 32) :
    initAccountsAuthorityPda rt s = mintAccountsAuthorityPda rt s ∧
    initAccountsAuthorityPda rt s = collectionAuthorityPda rt s ∧
    mintAccountsAuthorityPda rt s = collectionAuthorityPda rt s :=
  ⟨rfl, rfl, rfl⟩

/-- Witness for C6 at the concrete seed "GEN1". -/
theorem C6_witness :
    initAccountsAuthorityPda rt0 seedA = mintAccountsAuthorityPda rt0 seedA ∧
    initAccountsAuthorityPda rt0 seedA = collectionAuthorityPda rt0 seedA ∧
    mintAccountsAuthorityPda rt0 seedA = collectionAuthorityPda rt0 seedA :=
  C6_derivation_deterministic rt0 seedA (by decide)

/-- Claim C9 counterexample: update_collection_authority with a 33-byte seed
does not return success: account validation fails while deriving the
collection-authority address. -/
theorem C9_cex :
    runUpdateAuthority rt0 chain0 1 seedLong 5 =
      .error (.foreign .pdaDerivationFailed) ∧
    (runUpdateAuthority rt0 chain0 1 seedLong 5).isOk = false := by
  decide

/-- Claim C9 (amended): for every input whose collection-authority derivation
succeeds, update_collection_authority returns success, performs no state
change, issues no CPI, and ignores both the signer and the proposed new
authority; on a failing derivation the committed state is also unchanged. -/
theorem C9_update_authority_noop (rt : Runtime) (c : Chain) (admin : Pubkey)
    (seed : Bytes) (newAuthority : Pubkey) (p : Pubkey × Nat)
    (hp : collectionAuthorityPda rt seed = some p) :
    runUpdateAuthority rt c admin seed newAuthority = .ok (c, []) ∧
    (∀ admin' newAuthority', runUpdateAuthority rt c admin seed newAuthority =
      runUpdateAuthority rt c admin' seed newAuthority') ∧
    committedChain c (runUpdateAuthority rt c admin seed newAuthority) = c := by
  have h1 : runUpdateAuthority rt c admin seed newAuthority = .ok (c, []) := by
    unfold runUpdateAuthority
    rw [hp]
  refine ⟨h1, fun _ _ => rfl, ?_⟩
  rw [h1]
  rfl

/-- Witness for C9 at the concrete seed "GEN1". -/
theorem C9_witness :
    runUpdateAuthority rt0 chain0 1 seedA 5 = .ok (chain0, []) ∧
    (∀ admin' newAuthority', runUpdateAuthority rt0 chain0 1 seedA 5 =
      runUpdateAuthority rt0 chain0 admin' seedA newAuthority') ∧
    committedChain chain0 (runUpdateAuthority rt0 chain0 1 seedA 5) = chain0 :=
  C9_update_authority_noop rt0 chain0 1 seedA 5
    ((collectionAuthorityPda rt0 seedA).getD (0, 0)) (by decide)

/-- Claim C10: no code path of the three instructions ever surfaces one of the
five declared custom error codes: every error a run returns is a foreign
failure (an external-service or framework account-validation error) propagated
verbatim, so the custom taxonomy is dead at the public interface. -/
theorem C10_custom_errors_unreachable (rt : Runtime) (c : Chain)
    (admin mintAddr user nftMintAddr collectionMint newAuthority : Pubkey)
    (seedI seedM seedU : Bytes) (cmd : CollectionMetadata) (nmd : NftMetadata)
    (e : ProgError)
    (h : runInitCollection rt c admin mintAddr seedI cmd = .error e ∨
      runMintAndVerify rt c user nftMintAddr collectionMint seedM nmd = .error e ∨
      runUpdateAuthority rt c admin seedU newAuthority = .error e) :
    e.isCustom = false := by
  have : ∃ f, e = .foreign f := by
    rcases h with h | h | h
    · exact runInit_error_foreign h
    · exact runMint_error_foreign h
    · exact runUpdate_error_foreign h
  obtain ⟨f, rfl⟩ := this
  rfl

/-- Witness for C10: a concrete failing run (33-byte seed) only surfaces a
foreign error. -/
theorem C10_witness : (ProgError.foreign .pdaDerivationFailed).isCustom = false :=
  C10_custom_errors_unreachable rt0 chain0 1 1000 2 2000 1000 5 seedA seedA seedLong
    mdA mdN (.foreign .pdaDerivationFailed) (Or.inr (Or.inr (by decide)))

/-- Claim C4 counterexample: with a 33-byte seed the bootstrap fails with the
account-validation failure surfaced as a foreign error, not with the custom
InvalidCollectionSeed code. -/
theorem C4_cex :
    collectionAuthorityPda rt0 seedLong = none ∧
    runInitCollection rt0 chain0 1 1000 seedLong mdA =
      .error (.foreign .pdaDerivationFailed) ∧
    runInitCollection rt0 chain0 1 1000 seedLong mdA ≠
      .error (.custom .InvalidCollectionSeed) := by
  decide

/-- Claim C4 (amended): for every seed longer than 32 bytes the authority
derivation finds no address, and each operation using it fails during account
validation with a foreign error (the runtime seed-length failure surfaced
verbatim); the custom InvalidCollectionSeed is never produced. -/
theorem C4_long_seed_fails_foreign (rt : Runtime) (c : Chain)
    (admin mintAddr user nftMintAddr collectionMint newAuthority : Pubkey)
    (seed : Bytes) (cmd : CollectionMetadata) (nmd : NftMetadata)
    (h : 32 < seed.length) :
    collectionAuthorityPda rt seed = none ∧
    initAccountsAuthorityPda rt seed = none ∧
    mintAccountsAuthorityPda rt seed = none ∧
    (∃ f, runInitCollection rt c admin mintAddr seed cmd = .error (.foreign f)) ∧
    (∃ f, runMintAndVerify rt c user nftMintAddr collectionMint seed nmd =
      .error (.foreign f)) ∧
    runUpdateAuthority rt c admin seed newAuthority =
      .error (.foreign .pdaDerivationFailed) :=
  ⟨collectionAuthorityPda_seed_long rt seed h,
   findBumpAux_seed_long rt PROGRAM_ID COLLECTION_AUTHORITY_SEED seed h 255,
   findBumpAux_seed_long rt PROGRAM_ID COLLECTION_AUTHORITY_SEED seed h 255,
   runInit_long_seed rt c admin mintAddr cmd h,
   runMint_long_seed rt c user nftMintAddr collectionMint nmd h,
   runUpdate_long_seed rt c admin newAuthority h⟩

/-- Witness for C4 at the concrete 33-byte seed. -/
theorem C4_witness :
    collectionAuthorityPda rt0 seedLong = none ∧
    initAccountsAuthorityPda rt0 seedLong = none ∧
    mintAccountsAuthorityPda rt0 seedLong = none ∧
    (∃ f, runInitCollection rt0 chain0 1 1000 seedLong mdA = .error (.foreign f)) ∧
    (∃ f, runMintAndVerify rt0 chain0 2 2000 1000 seedLong mdN =
      .error (.foreign f)) ∧
    runUpdateAuthority rt0 chain0 1 seedLong 5 =
      .error (.foreign .pdaDerivationFailed) :=
  C4_long_seed_fails_foreign rt0 chain0 1 1000 2 2000 1000 5 seedLong mdA mdN
    (by decide)

/-- Claim C3 counterexample: in the concrete bootstrap, the registration CPI
for the collection metadata is invoked WITH the derived authority as a
program-derived signer (signer seeds are present), so the derived authority
does sign the registration call. -/
theorem C3_cex :
    registrationSigner trace1 =
      some (some [COLLECTION_AUTHORITY_SEED, seedA, [255]]) ∧
    registrationSigner trace1 ≠ some none := by
  decide

/-- Claim C3 (amended): in every successful initialize_collection run the
registration of the collection metadata names the derived authority as
update authority, passes update_authority_is_signer = true, is paid and
mint-authorized by the administrator, and is invoked with the derived
authority program-signing through its seeds (tag, seed, bump); the derived
authority therefore does sign the registration call, alongside the
administrator. -/
theorem C3_registration_pda_signs (rt : Runtime) (c : Chain) (admin mintAddr : Pubkey)
    (seed : Bytes) (cmd : CollectionMetadata) (out : Chain × List Cpi)
    (h : runInitCollection rt c admin mintAddr seed cmd = .ok out) :
    ∃ metadataAddr authPda bump,
      initAccountsAuthorityPda rt seed = some (authPda, bump) ∧
      out.2.get? 1 = some (.createMetadataV3 metadataAddr mintAddr admin admin authPda
        (mkCollectionData admin cmd) true true
        (some [COLLECTION_AUTHORITY_SEED, seed, [bump]])) ∧
      registrationSigner out.2 = some (some [COLLECTION_AUTHORITY_SEED, seed, [bump]]) := by
  obtain ⟨ata, meta, ed, authPda, bump, h1, -, -, -, -, htr⟩ := runInit_ok_inv h
  refine ⟨meta, authPda, bump, h1, ?_, ?_⟩
  · rw [htr]
    rfl
  · rw [htr]
    rfl

/-- Witness for C3 on the concrete bootstrap. -/
theorem C3_witness :
    ∃ metadataAddr authPda bump,
      initAccountsAuthorityPda rt0 seedA = some (authPda, bump) ∧
      (chain1, trace1).2.get? 1 = some (.createMetadataV3 metadataAddr 1000 1 1 authPda
        (mkCollectionData 1 mdA) true true
        (some [COLLECTION_AUTHORITY_SEED, seedA, [bump]])) ∧
      registrationSigner (chain1, trace1).2 =
        some (some [COLLECTION_AUTHORITY_SEED, seedA, [bump]]) :=
  C3_registration_pda_signs rt0 chain0 1 1000 seedA mdA (chain1, trace1) initA_ok

/-- Claim C5 counterexample: a bootstrap whose metadata name is 33 bytes fails
with the registry data-validation failure propagated verbatim, not with the
custom MetadataCreationFailed code. -/
theorem C5_cex :
    runInitCollection rt0 chain0 1 1000 seedA mdBig =
      .error (.foreign .metadataDataInvalid) ∧
    runInitCollection rt0 chain0 1 1000 seedA mdBig ≠
      .error (.custom .MetadataCreationFailed) := by
  decide

/-- Claim C5 (amended): a bootstrap whose metadata exceeds the registry size
limits (name over 32 bytes, symbol over 10, URI over 200, or royalty basis
points over 10000) and whose validation otherwise proceeds fails at the
registration step with the registry data-validation failure, surfaced
verbatim as a foreign error and never mapped to the custom
MetadataCreationFailed code; nothing commits. -/
theorem C5_oversized_metadata_foreign (rt : Runtime) (c : Chain) (admin mintAddr : Pubkey)
    (seed : Bytes) (cmd : CollectionMetadata)
    (ataAddr ab metadataAddr mb editionAddr eb authPda bump : Nat)
    (hata : associatedTokenAddress rt admin mintAddr = some (ataAddr, ab))
    (hmeta : metadataPda rt mintAddr = some (metadataAddr, mb))
    (hed : masterEditionPda rt mintAddr = some (editionAddr, eb))
    (hauth : initAccountsAuthorityPda rt seed = some (authPda, bump))
    (hfm : c.allocated mintAddr = false)
    (hfa : c.allocated ataAddr = false)
    (hfd : c.allocated metadataAddr = false)
    (hne1 : ataAddr ≠ mintAddr)
    (hne2 : metadataAddr ≠ mintAddr)
    (hne3 : metadataAddr ≠ ataAddr)
    (hov : MAX_METADATA_NAME_LENGTH < cmd.name.utf8ByteSize ∨
      MAX_METADATA_SYMBOL_LENGTH < cmd.symbol.utf8ByteSize ∨
      MAX_METADATA_URI_LENGTH < cmd.uri.utf8ByteSize ∨
      10000 < cmd.sellerFeeBasisPoints) :
    runInitCollection rt c admin mintAddr seed cmd =
      .error (.foreign .metadataDataInvalid) ∧
    committedChain c (runInitCollection rt c admin mintAddr seed cmd) = c ∧
    runInitCollection rt c admin mintAddr seed cmd ≠
      .error (.custom .MetadataCreationFailed) := by
  have h1 := runInit_oversized_metadata rt c admin mintAddr seed cmd hata hmeta hed
    hauth hfm hfa hfd hne1 hne2 hne3 hov
  refine ⟨h1, ?_, ?_⟩
  · rw [h1]
    rfl
  · rw [h1]
    simp

/-- Witness for C5 on the concrete oversized bootstrap. -/
theorem C5_witness :
    runInitCollection rt0 chain0 1 1000 seedA mdBig =
      .error (.foreign .metadataDataInvalid) ∧
    committedChain chain0 (runInitCollection rt0 chain0 1 1000 seedA mdBig) = chain0 ∧
    runInitCollection rt0 chain0 1 1000 seedA mdBig ≠
      .error (.custom .MetadataCreationFailed) :=
  C5_oversized_metadata_foreign rt0 chain0 1 1000 seedA mdBig
    (pdaAddr (associatedTokenAddress rt0 1 1000))
    (pdaBump (associatedTokenAddress rt0 1 1000))
    (pdaAddr (metadataPda rt0 1000)) (pdaBump (metadataPda rt0 1000))
    (pdaAddr (masterEditionPda rt0 1000)) (pdaBump (masterEditionPda rt0 1000))
    (pdaAddr (initAccountsAuthorityPda rt0 seedA))
    (pdaBump (initAccountsAuthorityPda rt0 seedA))
    (by decide) (by decide) (by decide) (by decide) (by decide) (by decide)
    (by decide) (by decide) (by decide) (by decide) (by decide)

/-- Claim C1 counterexample: issuing against seed "OTHER" on the collection
bootstrapped with seed "GEN1" fails and commits nothing, but the surfaced
error is the registry authority-mismatch failure propagated verbatim, not the
custom VerificationFailed code. -/
theorem C1_cex :
    runMintAndVerify rt0 chain1 2 2000 1000 seedB mdN =
      .error (.foreign .collectionAuthorityMismatch) ∧
    runMintAndVerify rt0 chain1 2 2000 1000 seedB mdN ≠
      .error (.custom .VerificationFailed) := by
  decide

/-- Claim C1 (amended): when the supplied collection seed derives an authority
different from the update authority stored in the collection metadata, and the
run otherwise reaches the verification step, mint_and_verify_nft fails with
the registry authority-mismatch failure surfaced verbatim as a foreign error
(never the custom VerificationFailed), the whole unit aborts, nothing
commits, and no item asset unit, item descriptive record or item holding
record exists afterwards. -/
theorem C1_mismatched_seed_external_abort (rt : Runtime) (c : Chain)
    (user nftMintAddr collectionMint : Pubkey) (seed : Bytes) (nmd : NftMetadata)
    (ataAddr ab nftMetadataAddr mb nftEditionAddr eb : Nat)
    (collMetadataAddr cmb collEditionAddr ceb authPda bump : Nat)
    (cMint : MintState) (cm : MetadataState) (ce : EditionState)
    (hata : associatedTokenAddress rt user nftMintAddr = some (ataAddr, ab))
    (hmeta : metadataPda rt nftMintAddr = some (nftMetadataAddr, mb))
    (hed : masterEditionPda rt nftMintAddr = some (nftEditionAddr, eb))
    (hcmeta : metadataPda rt collectionMint = some (collMetadataAddr, cmb))
    (hced : masterEditionPda rt collectionMint = some (collEditionAddr, ceb))
    (hauth : mintAccountsAuthorityPda rt seed = some (authPda, bump))
    (hfm : c.allocated nftMintAddr = false)
    (hfa : c.allocated ataAddr = false)
    (hfd : c.allocated nftMetadataAddr = false)
    (hfe : c.allocated nftEditionAddr = false)
    (hne1 : ataAddr ≠ nftMintAddr)
    (hne2 : nftMetadataAddr ≠ nftMintAddr)
    (hne3 : nftMetadataAddr ≠ ataAddr)
    (hne4 : nftEditionAddr ≠ nftMintAddr)
    (hne5 : nftEditionAddr ≠ ataAddr)
    (hne6 : nftEditionAddr ≠ nftMetadataAddr)
    (hne7 : collectionMint ≠ nftMintAddr)
    (hne8 : collMetadataAddr ≠ nftMetadataAddr)
    (hne9 : collEditionAddr ≠ nftEditionAddr)
    (hcm : alookup c.mints collectionMint = some cMint)
    (hsz : ¬ (MAX_METADATA_NAME_LENGTH < nmd.name.utf8ByteSize ∨
      MAX_METADATA_SYMBOL_LENGTH < nmd.symbol.utf8ByteSize ∨
      MAX_METADATA_URI_LENGTH < nmd.uri.utf8ByteSize ∨
      10000 < nmd.sellerFeeBasisPoints))
    (hcmd : alookup c.metadatas collMetadataAddr = some cm)
    (hmm : cm.mint = collectionMint)
    (hce : alookup c.editions collEditionAddr = some ce)
    (hcem : ce.mint = collectionMint)
    (hneq : cm.updateAuthority ≠ authPda) :
    runMintAndVerify rt c user nftMintAddr collectionMint seed nmd =
      .error (.foreign .collectionAuthorityMismatch) ∧
    committedChain c (runMintAndVerify rt c user nftMintAddr collectionMint seed nmd)
      = c ∧
    (committedChain c (runMintAndVerify rt c user nftMintAddr collectionMint seed
      nmd)).allocated nftMintAddr = false ∧
    (committedChain c (runMintAndVerify rt c user nftMintAddr collectionMint seed
      nmd)).allocated nftMetadataAddr = false ∧
    (committedChain c (runMintAndVerify rt c user nftMintAddr collectionMint seed
      nmd)).allocated ataAddr = false ∧
    runMintAndVerify rt c user nftMintAddr collectionMint seed nmd ≠
      .error (.custom .VerificationFailed) := by
  have h1 := runMint_authority_mismatch rt c user nftMintAddr collectionMint seed nmd
    hata hmeta hed hcmeta hced hauth hfm hfa hfd hfe hne1 hne2 hne3 hne4 hne5 hne6
    hne7 hne8 hne9 hcm hsz hcmd hmm hce hcem hneq
  have h2 : committedChain c (runMintAndVerify rt c user nftMintAddr collectionMint
      seed nmd) = c := by
    rw [h1]
    rfl
  refine ⟨h1, h2, ?_, ?_, ?_, ?_⟩
  · rw [h2]
    exact hfm
  · rw [h2]
    exact hfd
  · rw [h2]
    exact hfa
  · rw [h1]
    simp

/-- Witness for C1: the concrete mismatched issuance (seed "OTHER" against the
collection bootstrapped with "GEN1"). -/
theorem C1_witness :
    runMintAndVerify rt0 chain1 2 2000 1000 seedB mdN =
      .error (.foreign .collectionAuthorityMismatch) ∧
    committedChain chain1 (runMintAndVerify rt0 chain1 2 2000 1000 seedB mdN)
      = chain1 ∧
    (committedChain chain1 (runMintAndVerify rt0 chain1 2 2000 1000 seedB
      mdN)).allocated 2000 = false ∧
    (committedChain chain1 (runMintAndVerify rt0 chain1 2 2000 1000 seedB
      mdN)).allocated (pdaAddr (metadataPda rt0 2000)) = false ∧
    (committedChain chain1 (runMintAndVerify rt0 chain1 2 2000 1000 seedB
      mdN)).allocated (pdaAddr (associatedTokenAddress rt0 2 2000)) = false ∧
    runMintAndVerify rt0 chain1 2 2000 1000 seedB mdN ≠
      .error (.custom .VerificationFailed) :=
  C1_mismatched_seed_external_abort rt0 chain1 2 2000 1000 seedB mdN
    (pdaAddr (associatedTokenAddress rt0 2 2000))
    (pdaBump (associatedTokenAddress rt0 2 2000))
    (pdaAddr (metadataPda rt0 2000)) (pdaBump (metadataPda rt0 2000))
    (pdaAddr (masterEditionPda rt0 2000)) (pdaBump (masterEditionPda rt0 2000))
    (pdaAddr (metadataPda rt0 1000)) (pdaBump (metadataPda rt0 1000))
    (pdaAddr (masterEditionPda rt0 1000)) (pdaBump (masterEditionPda rt0 1000))
    (pdaAddr (mintAccountsAuthorityPda rt0 seedB))
    (pdaBump (mintAccountsAuthorityPda rt0 seedB))
    ((alookup chain1.mints 1000).getD ⟨0, 0, none, none⟩)
    ((alookup chain1.metadatas (pdaAddr (metadataPda rt0 1000))).getD
      ⟨0, 0, ⟨"", "", "", 0, none, none⟩, false⟩)
    ((alookup chain1.editions (pdaAddr (masterEditionPda rt0 1000))).getD ⟨0, none⟩)
    (by decide) (by decide) (by decide) (by decide) (by decide) (by decide)
    (by decide) (by decide) (by decide) (by decide) (by decide) (by decide)
    (by decide) (by decide) (by decide) (by decide) (by decide) (by decide)
    (by decide) (by decide) (by decide) (by decide) (by decide) (by decide)
    (by decide) (by decide)

set_option linter.unusedVariables false in
/-- Claim C2: after bootstrapping a collection with seed S, every successful
issuance against the same seed S and that collection ends with the item
metadata storing a collection reference with verified = true; the same atomic
unit registered the record with verified = false (the registration CPI
carries the unverified reference) and flipped it before completing. -/
theorem C2_same_seed_verified (rt : Runtime) (c0 : Chain)
    (admin cMintAddr user nftMintAddr : Pubkey) (S : Bytes)
    (cmd : CollectionMetadata) (nmd : NftMetadata) (out1 out2 : Chain × List Cpi)
    (hinit : runInitCollection rt c0 admin cMintAddr S cmd = .ok out1)
    (hmint : runMintAndVerify rt out1.1 user nftMintAddr cMintAddr S nmd = .ok out2) :
    ∃ nftMetadataAddr mdRec,
      alookup out2.1.metadatas nftMetadataAddr = some mdRec ∧
      mdRec.data.collection = some ⟨true, cMintAddr⟩ ∧
      out2.2.get? 1 = some (.createMetadataV3 nftMetadataAddr nftMintAddr user user
        user (mkNftData user cMintAddr nmd) true true none) ∧
      (mkNftData user cMintAddr nmd).collection = some ⟨false, cMintAddr⟩ := by
  obtain ⟨ata, nMeta, nEd, cMeta, cEd, authPda, bump, -, -, -, hmd, -, htr⟩ :=
    runMint_ok_inv hmint
  refine ⟨nMeta, _, hmd, rfl, ?_, rfl⟩
  rw [htr]
  rfl

/-- Witness for C2 on the concrete bootstrap-then-issue scenario. -/
theorem C2_witness :
    ∃ nftMetadataAddr mdRec,
      alookup chain2.metadatas nftMetadataAddr = some mdRec ∧
      mdRec.data.collection = some ⟨true, 1000⟩ ∧
      trace2.get? 1 = some (.createMetadataV3 nftMetadataAddr 2000 2 2 2
        (mkNftData 2 1000 mdN) true true none) ∧
      (mkNftData 2 1000 mdN).collection = some ⟨false, 1000⟩ :=
  C2_same_seed_verified rt0 chain0 1 1000 2 2000 seedA mdA mdN (chain1, trace1)
    (chain2, trace2) initA_ok mintA_ok

/-- Claim C7: every successful mint_and_verify_nft registers the item record
with creators = [(user, verified = true, share = 100)], a collection
reference (key = the supplied collection asset identity, verified = false at
creation), and update authority = the signing user. -/
theorem C7_item_record_contents (rt : Runtime) (c : Chain)
    (user nftMintAddr collectionMint : Pubkey) (seed : Bytes) (nmd : NftMetadata)
    (out : Chain × List Cpi)
    (h : runMintAndVerify rt c user nftMintAddr collectionMint seed nmd = .ok out) :
    (mkNftData user collectionMint nmd).creators = some [⟨user, true, 100⟩] ∧
    (mkNftData user collectionMint nmd).collection = some ⟨false, collectionMint⟩ ∧
    ∃ nftMetadataAddr,
      out.2.get? 1 = some (.createMetadataV3 nftMetadataAddr nftMintAddr user user
        user (mkNftData user collectionMint nmd) true true none) ∧
      ∃ mdRec, alookup out.1.metadatas nftMetadataAddr = some mdRec ∧
        mdRec.updateAuthority = user ∧
        mdRec.data.creators = some [⟨user, true, 100⟩] := by
  obtain ⟨ata, nMeta, nEd, cMeta, cEd, authPda, bump, -, -, -, hmd, -, htr⟩ :=
    runMint_ok_inv h
  refine ⟨rfl, rfl, nMeta, ?_, _, hmd, rfl, rfl⟩
  rw [htr]
  rfl

/-- Witness for C7 on the concrete issuance. -/
theorem C7_witness :
    (mkNftData 2 1000 mdN).creators = some [⟨2, true, 100⟩] ∧
    (mkNftData 2 1000 mdN).collection = some ⟨false, 1000⟩ ∧
    ∃ nftMetadataAddr,
      trace2.get? 1 = some (.createMetadataV3 nftMetadataAddr 2000 2 2 2
        (mkNftData 2 1000 mdN) true true none) ∧
      ∃ mdRec, alookup chain2.metadatas nftMetadataAddr = some mdRec ∧
        mdRec.updateAuthority = 2 ∧
        mdRec.data.creators = some [⟨2, true, 100⟩] :=
  C7_item_record_contents rt0 chain1 2 2000 1000 seedA mdN (chain2, trace2) mintA_ok

/-- Claim C8: every successful initialize_collection issues exactly quantity 1
of the new collection unit (decimals 0) into the administrator holding record
and seals its record with maximum supply 0; every successful
mint_and_verify_nft does the same for the user and the item unit. -/
theorem C8_single_issuance_sealed (rt : Runtime) (cI cM : Chain)
    (admin mintAddr user nftMintAddr collectionMint : Pubkey)
    (seedI seedM : Bytes) (cmd : CollectionMetadata) (nmd : NftMetadata) :
    (∀ out, runInitCollection rt cI admin mintAddr seedI cmd = .ok out →
      ∃ ataAddr editionAddr mst,
        alookup out.1.tokenAccounts ataAddr = some ⟨mintAddr, admin, 1⟩ ∧
        alookup out.1.mints mintAddr = some mst ∧ mst.decimals = 0 ∧
        mst.supply = 1 ∧
        alookup out.1.editions editionAddr = some ⟨mintAddr, some 0⟩) ∧
    (∀ out, runMintAndVerify rt cM user nftMintAddr collectionMint seedM nmd =
        .ok out →
      ∃ ataAddr editionAddr mst,
        alookup out.1.tokenAccounts ataAddr = some ⟨nftMintAddr, user, 1⟩ ∧
        alookup out.1.mints nftMintAddr = some mst ∧ mst.decimals = 0 ∧
        mst.supply = 1 ∧
        alookup out.1.editions editionAddr = some ⟨nftMintAddr, some 0⟩) := by
  constructor
  · intro out h
    obtain ⟨ata, meta, ed, authPda, bump, -, hta, hmints, -, hed, -⟩ :=
      runInit_ok_inv h
    exact ⟨ata, ed, ⟨0, 1, some ed, some ed⟩, hta, hmints, rfl, rfl, hed⟩
  · intro out h
    obtain ⟨ata, nMeta, nEd, cMeta, cEd, authPda, bump, -, hta, hmints, -, hed, -⟩ :=
      runMint_ok_inv h
    exact ⟨ata, nEd, ⟨0, 1, some nEd, some nEd⟩, hta, hmints, rfl, rfl, hed⟩

/-- Witness for C8 on the two concrete successful runs. -/
theorem C8_witness :
    (∃ ataAddr editionAddr mst,
      alookup chain1.tokenAccounts ataAddr = some ⟨1000, 1, 1⟩ ∧
      alookup chain1.mints 1000 = some mst ∧ mst.decimals = 0 ∧ mst.supply = 1 ∧
      alookup chain1.editions editionAddr = some ⟨1000, some 0⟩) ∧
    (∃ ataAddr editionAddr mst,
      alookup chain2.tokenAccounts ataAddr = some ⟨2000, 2, 1⟩ ∧
      alookup chain2.mints 2000 = some mst ∧ mst.decimals = 0 ∧ mst.supply = 1 ∧
      alookup chain2.editions editionAddr = some ⟨2000, some 0⟩) :=
  ⟨(C8_single_issuance_sealed rt0 chain0 chain1 1 1000 2 2000 1000 seedA seedA mdA
      mdN).1 (chain1, trace1) initA_ok,
   (C8_single_issuance_sealed rt0 chain0 chain1 1 1000 2 2000 1000 seedA seedA mdA
      mdN).2 (chain2, trace2) mintA_ok⟩

end AutoVerify

